import Mathlib

/-!
Shallow embedding of the content-addressed incremental snapshot tracker of
`backup_capcut.py` (the PortoDB SHA/dedupe core): the streaming hasher
(`compute_sha256`), the manifest writer (`write_sha256_file`), the cross-run
ledger (`load_portodb_log` / `save_portodb_log`), the dedup classifier
(the classification loop of `process_portodb_hashes_and_dedupe`), and the
reclaim planner (`generate_portodb_delete_script`).

Filesystem reads and writes are made explicit: file contents parsed by
`json.load` are modelled by the `PyJson` value type, the persisted ledger
file by `LedgerFile`, and the write-side effects of each persistence
function by a trace of `FsEvent`s, so that atomic-replace behaviour is
observable.  SHA-256 itself is kept abstract (the digest function is a
parameter); the chunked streaming and its error propagation are modelled.
-/

namespace CapcutBackup

/-- A single quote character, used when rendering Python `str()`/`repr()` text. -/
def squote : String := String.singleton (Char.ofNat 39)

/-- Values produced by Python's `json.load`: null, booleans, numbers, strings,
arrays and objects.  Only integral numbers are modelled (the ledger file this
program reads holds only strings; floats never arise in its own output). -/
inductive PyJson where
  | jnull
  | jbool (b : Bool)
  | jint (n : Int)
  | jstr (s : String)
  | jarr (elems : List PyJson)
  | jobj (entries : List (String × PyJson))
deriving Repr

mutual

/-- Python `repr()` of a parsed JSON value (string escaping is not modelled:
strings are assumed free of quotes and control characters). -/
def pyRepr : PyJson → String
  | .jnull => "None"
  | .jbool true => "True"
  | .jbool false => "False"
  | .jint n => toString n
  | .jstr s => squote ++ s ++ squote
  | .jarr elems => "[" ++ String.intercalate ", " (pyReprList elems) ++ "]"
  | .jobj entries => "\x7b" ++ String.intercalate ", " (pyReprObj entries) ++ "\x7d"

/-- Helper for `pyRepr`: renders each element of a JSON array. -/
def pyReprList : List PyJson → List String
  | [] => []
  | v :: rest => pyRepr v :: pyReprList rest

/-- Helper for `pyRepr`: renders each `key: value` entry of a JSON object. -/
def pyReprObj : List (String × PyJson) → List String
  | [] => []
  | (k, v) :: rest => (squote ++ k ++ squote ++ ": " ++ pyRepr v) :: pyReprObj rest

end

/-- Python `str()` of a parsed JSON value: identity on strings, `repr` otherwise.
This is the coercion `str(v)` applied by `load_portodb_log`. -/
def pyStr : PyJson → String
  | .jstr s => s
  | v => pyRepr v

/-- Whether a parsed JSON value is an object, i.e. Python's
`isinstance(data, dict)` test in `load_portodb_log`. -/
def isJsonObj : PyJson → Bool
  | .jobj _ => true
  | _ => false

/-- State of the persisted ledger file as `load_portodb_log` observes it:
absent, present but failing to parse (`json.load` raises, carrying a message),
or present and parsed to a `PyJson` value. -/
inductive LedgerFile where
  | absent
  | present (parsed : Except String PyJson)

/-- Embedding of `load_portodb_log` (src/backup_capcut.py lines 351-362).
Returns the path-to-fingerprint mapping together with a flag recording
whether the `[WARN] Could not read existing PortoDB SHA log` message was
printed.  A missing file yields the empty mapping silently; a parse
exception is caught, warned about, and yields the empty mapping; a parsed
non-object yields the empty mapping silently; a parsed object is returned
with every value coerced through `str()`. -/
def load_portodb_log : LedgerFile → List (String × String) × Bool
  | .absent => ([], false)
  | .present (.error _) => ([], true)
  | .present (.ok data) =>
    match data with
    | .jobj entries => (entries.map fun kv => (kv.1, pyStr kv.2), false)
    | _ => ([], false)

/-- Lexicographic comparison of character lists by code point, the order
Python string comparison uses. -/
def charListLE : List Char → List Char → Bool
  | [], _ => true
  | _ :: _, [] => false
  | a :: as, b :: bs =>
    if a.toNat < b.toNat then true
    else if a.toNat = b.toNat then charListLE as bs
    else false

/-- Python string order, by code points. -/
def strLE (a b : String) : Bool := charListLE a.data b.data

/-- Ordered insertion of one pair by key, ascending; used to model
`json.dump(..., sort_keys=True)` in `save_portodb_log`. -/
def insertPairByKey (p : String × String) : List (String × String) → List (String × String)
  | [] => [p]
  | q :: qs => if strLE p.1 q.1 then p :: q :: qs else q :: insertPairByKey p qs

/-- Key-ascending insertion sort of an association list; models the
`sort_keys=True` ordering of the serialized ledger. -/
def sortPairsByKey : List (String × String) → List (String × String)
  | [] => []
  | p :: ps => insertPairByKey p (sortPairsByKey ps)

/-- Embedding of `save_portodb_log` (src/backup_capcut.py lines 365-370),
viewed through the ledger file it leaves behind: the written JSON text parses
back to an object holding exactly the saved entries in sorted key order
(string escaping is not modelled; keys and values are assumed escape-free). -/
def save_portodb_log (data : List (String × String)) : LedgerFile :=
  LedgerFile.present (Except.ok (PyJson.jobj
    ((sortPairsByKey data).map fun kv => (kv.1, PyJson.jstr kv.2))))

/-- Observable filesystem write events of a persistence operation:
opening a path for write truncates or creates that path (Python
`open(path, "w")`), writing its full content, and atomic rename
(`os.replace(src, dst)`). -/
inductive FsEvent where
  | openWrite (path : String)
  | writeAll (path : String) (content : String)
  | rename (src dst : String)
deriving Repr, DecidableEq

/-- Model of `os.path.join(root, rel)` for a relative second component. -/
def os_path_join (root rel : String) : String := root ++ "/" ++ rel

/-- JSON text produced by `json.dump(data, f, indent=2, sort_keys=True)`
(string escaping not modelled). -/
def json_dump (data : List (String × String)) : String :=
  if data.isEmpty then "\x7b\x7d"
  else
    "\x7b\n"
      ++ String.intercalate ",\n"
          ((sortPairsByKey data).map fun kv =>
            "  \"" ++ kv.1 ++ "\": \"" ++ kv.2 ++ "\"")
      ++ "\n\x7d"

/-- Write trace of `save_portodb_log` (src/backup_capcut.py lines 365-370):
open and fill `log_path + ".tmp"`, then `os.replace` it over `log_path`. -/
def save_portodb_log_trace (log_path : String) (data : List (String × String)) :
    List FsEvent :=
  [FsEvent.openWrite (log_path ++ ".tmp"),
   FsEvent.writeAll (log_path ++ ".tmp") (json_dump data),
   FsEvent.rename (log_path ++ ".tmp") log_path]

deriving instance DecidableEq for Except

/-- A chunk of file bytes as yielded by `f.read(1024 * 1024)`. -/
abbrev ByteChunk := List Nat

/-- The sequence of chunk reads a file yields when streamed: each read either
returns a chunk or raises `IOError` (carrying a message) when the file becomes
unreadable mid-stream. -/
abbrev ChunkStream := List (Except String ByteChunk)

/-- Reads every chunk of a stream in order; the first read error propagates
as the overall result (nothing catches it inside the hasher). -/
def read_chunks : ChunkStream → Except String (List ByteChunk)
  | [] => Except.ok []
  | Except.error e :: _ => Except.error e
  | Except.ok c :: rest => (read_chunks rest).map fun cs => c :: cs

/-- Embedding of `compute_sha256` (src/backup_capcut.py lines 311-319):
streams the file chunk by chunk and digests the accumulated bytes, the digest
function itself (SHA-256) kept abstract as the parameter `digest`.  An
`IOError` raised by any read escapes the function. -/
def compute_sha256 (digest : List ByteChunk → String) (stream : ChunkStream) :
    Except String String :=
  (read_chunks stream).map digest

/-- Result of a successful `write_sha256_file` call: the in-memory
relative-path-to-digest mapping it returns, and the manifest lines it wrote. -/
structure ShaFileResult where
  sha_map : List (String × String)
  lines : List String
deriving Repr, DecidableEq

/-- Embedding of the walk loop of `write_sha256_file`
(src/backup_capcut.py lines 321-348).  The directory walk is given as the
list of regular files `os.walk` enumerates, in enumeration order, each with
its relative path and chunk stream.  The reserved sidecar `SHA256.txt` at the
root is skipped; every other file is hashed with `compute_sha256`, whose
`IOError` is not caught and so aborts the whole walk.  Entries and manifest
lines are accumulated in walk order; each line is
`digest ++ "  " ++ relative path`. -/
def write_sha256_file (digest : List ByteChunk → String) :
    List (String × ChunkStream) → Except String ShaFileResult
  | [] => Except.ok ⟨[], []⟩
  | (rel_path, stream) :: rest =>
    if rel_path = "SHA256.txt" then write_sha256_file digest rest
    else
      match compute_sha256 digest stream with
      | Except.error e => Except.error e
      | Except.ok sha256 =>
        match write_sha256_file digest rest with
        | Except.error e => Except.error e
        | Except.ok res =>
          Except.ok ⟨(rel_path, sha256) :: res.sha_map,
                     (sha256 ++ "  " ++ rel_path) :: res.lines⟩

/-- Text content `write_sha256_file` writes into `SHA256.txt`:
`"\n".join(lines) + ("\n" if lines else "")`. -/
def manifest_text (lines : List String) : String :=
  String.intercalate "\n" lines ++ (if lines.isEmpty then "" else "\n")

/-- Write trace of `write_sha256_file` for the manifest: after the whole walk
succeeds, `SHA256.txt` is opened for write directly at its final path and
filled — there is no temp file and no rename.  If the walk raises, the open
is never reached and nothing is written. -/
def write_sha256_file_trace (digest : List ByteChunk → String)
    (portodb_root : String) (walk : List (String × ChunkStream)) : List FsEvent :=
  match write_sha256_file digest walk with
  | Except.error _ => []
  | Except.ok res =>
    [FsEvent.openWrite (os_path_join portodb_root "SHA256.txt"),
     FsEvent.writeAll (os_path_join portodb_root "SHA256.txt")
       (manifest_text res.lines)]

/-- Python dict assignment `d[k] = v` on an association list: replaces the
value at an existing key in place, otherwise appends the new pair. -/
def dictInsert (k v : String) : List (String × String) → List (String × String)
  | [] => [(k, v)]
  | (k', v') :: rest =>
    if k = k' then (k, v) :: rest else (k', v') :: dictInsert k v rest

/-- The per-file test of the classification loop
(src/backup_capcut.py line 444): `prev_sha is not None and prev_sha == sha`,
with `prev_sha = old_log.get(rel_path)`. -/
def classified_unchanged (old_log : List (String × String)) (rel_path sha : String) :
    Bool :=
  match old_log.lookup rel_path with
  | none => false
  | some prev_sha => prev_sha == sha

/-- The classification loop of `process_portodb_hashes_and_dedupe`
(src/backup_capcut.py lines 439-450), with the mutable `new_log` dict made
an explicit accumulator.  For each `(rel_path, sha)` of the current manifest
in order: if the old log holds an equal prior fingerprint for `rel_path`,
the current run's absolute path `os.path.join(portodb_root, rel_path)` is
recorded as unchanged; in every case `new_log[rel_path] = sha`. -/
def dedupe_classify (portodb_root : String) (old_log : List (String × String)) :
    List (String × String) → List (String × String) →
    List String × List (String × String)
  | new_log, [] => ([], new_log)
  | new_log, (rel_path, sha) :: rest =>
    let res := dedupe_classify portodb_root old_log (dictInsert rel_path sha new_log) rest
    if classified_unchanged old_log rel_path sha then
      (os_path_join portodb_root rel_path :: res.1, res.2)
    else res

/-- Steps 2-3 of `process_portodb_hashes_and_dedupe`
(src/backup_capcut.py lines 439-450): starting from
`new_log = dict(old_log)`, returns the unchanged absolute paths and the
updated log. -/
def process_dedupe (portodb_root : String)
    (current_map old_log : List (String × String)) :
    List String × List (String × String) :=
  dedupe_classify portodb_root old_log old_log current_map

/-- Lines of the generated deletion plan script, as built by
`generate_portodb_delete_script` (src/backup_capcut.py lines 386-411): a
standalone Python program embedding every candidate absolute path, gated on
the exact confirmation string `DELETE PORTODB`, re-checking existence per
path and reporting per-path failures without aborting the batch. -/
def portodb_delete_script_lines (files_to_delete : List String) : List String :=
  ["import os", "", "FILES_TO_DELETE = ["]
  ++ (files_to_delete.map fun p => "    r\"" ++ p ++ "\",")
  ++ ["]",
      "",
      "def main():",
      "    for path in FILES_TO_DELETE:",
      "        if os.path.exists(path):",
      "            print(f" ++ squote ++ "Removing {path} ..." ++ squote ++ ")",
      "            try:",
      "                os.remove(path)",
      "            except Exception as e:",
      "                print(f" ++ squote ++ "  [WARN] Failed to remove {path}: {e}"
        ++ squote ++ ")",
      "        else:",
      "            print(f" ++ squote ++ "Skipping {path}; does not exist."
        ++ squote ++ ")",
      "",
      "if __name__ == " ++ squote ++ "__main__" ++ squote ++ ":",
      "    confirm = input(" ++ squote
        ++ "Type DELETE PORTODB to remove unchanged destination PortoDB files: "
        ++ squote ++ ")",
      "    if confirm.strip() == " ++ squote ++ "DELETE PORTODB" ++ squote ++ ":",
      "        main()",
      "    else:",
      "        print(" ++ squote ++ "Aborted; no deletions performed." ++ squote ++ ")",
      ""]

/-- Embedding of `generate_portodb_delete_script`
(src/backup_capcut.py lines 373-417), by its write trace and the message it
prints.  With an empty candidate list it writes nothing and reports that no
delete script is generated; otherwise it writes the plan script to
`os.path.join(os.getcwd(), "delete_unchanged_portodb_<timestamp>.py")`. -/
def generate_portodb_delete_script (timestamp cwd : String)
    (files_to_delete : List String) : List FsEvent × String :=
  if files_to_delete.isEmpty then
    ([], "[INFO] No unchanged PortoDB files this run; no delete script generated.")
  else
    let script_path :=
      os_path_join cwd ("delete_unchanged_portodb_" ++ timestamp ++ ".py")
    ([FsEvent.openWrite script_path,
      FsEvent.writeAll script_path
        (String.intercalate "\n" (portodb_delete_script_lines files_to_delete))],
     "[GENERATED] PortoDB dedupe delete script: " ++ script_path)

/-- Spec-side predicate (from the spec's atomicity wording, for comparison
with the code's write traces): a persistence trace makes `target` visible
atomically when `target` itself is never opened for direct write or written
to — it may only ever appear as the destination of a rename. -/
def atomicReplaceOnly (target : String) (trace : List FsEvent) : Bool :=
  trace.all fun e =>
    match e with
    | FsEvent.openWrite p => p ≠ target
    | FsEvent.writeAll p _ => p ≠ target
    | FsEvent.rename _ _ => true

/-- Spec-side predicate (from the spec's "sorted by relative path" wording):
the sequence of relative paths, in manifest line order, is ascending in
Python string order. -/
def relPathsSorted (rel_paths : List String) : Prop :=
  List.Sorted (fun a b => strLE a b = true) rel_paths

/-- A 64-character lowercase hexadecimal string, the shape of every
`hashlib.sha256(...).hexdigest()` output. -/
def isHex64 (s : String) : Bool :=
  s.length == 64 && s.data.all fun c => c.isDigit || (97 ≤ c.toNat && c.toNat ≤ 102)

/-! Helper lemmas about association-list lookup, the sort used by
`save_portodb_log`, and the two components of the classification loop. -/

theorem lookup_eq_none_of_not_mem_keys {a : String} {l : List (String × String)}
    (h : a ∉ l.map Prod.fst) : l.lookup a = none := by
  induction l with
  | nil => rfl
  | cons p rest ih =>
    simp only [List.map_cons, List.mem_cons, not_or] at h
    have hb : (a == p.1) = false := beq_eq_false_iff_ne.mpr h.1
    simp [List.lookup, hb, ih h.2]

theorem lookup_dictInsert (k v : String) (l : List (String × String)) (k' : String) :
    (dictInsert k v l).lookup k' = if k' = k then some v else l.lookup k' := by
  induction l with
  | nil =>
    by_cases h : k' = k
    · simp [dictInsert, List.lookup, h]
    · simp [dictInsert, List.lookup, beq_eq_false_iff_ne.mpr h, h]
  | cons q rest ih =>
    obtain ⟨k₁, v₁⟩ := q
    by_cases hk : k = k₁
    · subst hk
      by_cases h : k' = k
      · simp [dictInsert, List.lookup, h]
      · simp [dictInsert, List.lookup, beq_eq_false_iff_ne.mpr h, h]
    · by_cases h : k' = k₁
      · subst h
        simp [dictInsert, hk, List.lookup, Ne.symm hk]
      · simp [dictInsert, hk, List.lookup, beq_eq_false_iff_ne.mpr h, ih]

theorem insertPairByKey_perm (p : String × String) (l : List (String × String)) :
    List.Perm (insertPairByKey p l) (p :: l) := by
  induction l with
  | nil => simp [insertPairByKey]
  | cons q qs ih =>
    cases hb : strLE p.1 q.1 with
    | true => simp [insertPairByKey, hb]
    | false =>
      simp only [insertPairByKey, hb, Bool.false_eq_true, if_false]
      exact ((ih.cons q).trans (List.Perm.swap p q qs))

theorem sortPairsByKey_perm (l : List (String × String)) :
    List.Perm (sortPairsByKey l) l := by
  induction l with
  | nil => exact List.Perm.refl _
  | cons p ps ih =>
    exact (insertPairByKey_perm p (sortPairsByKey ps)).trans (ih.cons p)

theorem lookup_eq_of_perm {l₁ l₂ : List (String × String)} (h : List.Perm l₁ l₂)
    (hn : (l₁.map Prod.fst).Nodup) (k : String) : l₁.lookup k = l₂.lookup k := by
  induction h with
  | nil => rfl
  | cons x h ih =>
    simp only [List.map_cons, List.nodup_cons] at hn
    cases hb : k == x.1 with
    | true => simp [List.lookup, hb]
    | false => simp [List.lookup, hb, ih hn.2]
  | swap x y l =>
    simp only [List.map_cons, List.nodup_cons, List.mem_cons, not_or] at hn
    have hxy : y.1 ≠ x.1 := hn.1.1
    cases hby : k == y.1 with
    | true =>
      have : k = y.1 := eq_of_beq hby
      have hbx : (k == x.1) = false := beq_eq_false_iff_ne.mpr (this ▸ hxy)
      simp [List.lookup, hby, hbx]
    | false =>
      cases hbx : k == x.1 with
      | true => simp [List.lookup, hby, hbx]
      | false => simp [List.lookup, hby, hbx]
  | trans h₁ h₂ ih₁ ih₂ =>
    have hn₂ := (h₁.map Prod.fst).nodup hn
    exact (ih₁ hn).trans (ih₂ hn₂)

theorem map_pyStr_jstr (l : List (String × String)) :
    ((l.map fun kv => (kv.1, PyJson.jstr kv.2)).map fun kv => (kv.1, pyStr kv.2)) = l := by
  induction l with
  | nil => rfl
  | cons p rest ih =>
    simp only [List.map_cons, ih]
    rfl

theorem dedupe_classify_fst (root : String) (old log cur : List (String × String)) :
    (dedupe_classify root old log cur).1
      = (cur.filter fun kv => classified_unchanged old kv.1 kv.2).map
          fun kv => os_path_join root kv.1 := by
  induction cur generalizing log with
  | nil => rfl
  | cons kv rest ih =>
    obtain ⟨rel, sha⟩ := kv
    cases hb : classified_unchanged old rel sha with
    | true => simp [dedupe_classify, hb, List.filter_cons, ih]
    | false => simp [dedupe_classify, hb, List.filter_cons, ih]

theorem dedupe_classify_snd_lookup (root : String)
    (old : List (String × String)) (cur : List (String × String))
    (log : List (String × String)) (k : String)
    (hn : (cur.map Prod.fst).Nodup) :
    ((dedupe_classify root old log cur).2).lookup k
      = match cur.lookup k with
        | some sha => some sha
        | none => log.lookup k := by
  induction cur generalizing log with
  | nil => simp [dedupe_classify, List.lookup]
  | cons kv rest ih =>
    obtain ⟨rel, sha⟩ := kv
    simp only [List.map_cons, List.nodup_cons] at hn
    have hsnd : (dedupe_classify root old log ((rel, sha) :: rest)).2
        = (dedupe_classify root old (dictInsert rel sha log) rest).2 := by
      cases hb : classified_unchanged old rel sha with
      | true => simp [dedupe_classify, hb]
      | false => simp [dedupe_classify, hb]
    rw [hsnd, ih (dictInsert rel sha log) hn.2]
    by_cases hk : k = rel
    · subst hk
      have hrest : rest.lookup k = none := lookup_eq_none_of_not_mem_keys hn.1
      simp [hrest, List.lookup, lookup_dictInsert]
    · have hb : (k == rel) = false := beq_eq_false_iff_ne.mpr hk
      cases hr : rest.lookup k with
      | some s => simp [List.lookup, hb, hr]
      | none => simp [List.lookup, hb, hr, lookup_dictInsert, hk]

/-! Claim theorems. -/

/-- C1: for every (relative path, fingerprint) pair of the current-run
manifest and every loaded ledger, the classification loop classifies the pair
as unchanged exactly when the ledger holds a prior fingerprint for that
relative path equal to the current one; and the reclaim candidate list it
produces consists exactly of the current-run absolute paths of the unchanged
pairs. -/
theorem dedup_classifier_unchanged_iff_and_reclaim_set
    (portodb_root : String) (current_map old_log : List (String × String)) :
    (∀ rel_path sha, classified_unchanged old_log rel_path sha = true
        ↔ old_log.lookup rel_path = some sha)
    ∧ (process_dedupe portodb_root current_map old_log).1
        = (current_map.filter fun kv => classified_unchanged old_log kv.1 kv.2).map
            fun kv => os_path_join portodb_root kv.1 := by
  constructor
  · intro rel_path sha
    cases h : old_log.lookup rel_path with
    | none => simp [classified_unchanged, h]
    | some prev => simp [classified_unchanged, h, beq_iff_eq]
  · exact dedupe_classify_fst portodb_root old_log old_log current_map

/-- C2: the updated ledger maps every relative path of the current manifest
to its current fingerprint, carries forward unchanged every old-ledger entry
whose path is absent from the current manifest, and holds no other keys. -/
theorem ledger_update_forward_carry (portodb_root : String)
    (current_map old_log : List (String × String))
    (hn : (current_map.map Prod.fst).Nodup) (rel_path : String) :
    ((process_dedupe portodb_root current_map old_log).2).lookup rel_path
      = match current_map.lookup rel_path with
        | some sha => some sha
        | none => old_log.lookup rel_path :=
  dedupe_classify_snd_lookup portodb_root old_log current_map old_log rel_path hn

/-- Witness for C2 at a concrete run: path "a" is updated to its current
fingerprint, path "b" (absent this run) is carried forward, and an unseen
path "c" stays absent. -/
theorem ledger_update_forward_carry_witness :
    ((process_dedupe "/r" [("a", "h2")] [("a", "h1"), ("b", "h0")]).2).lookup "a"
        = some "h2"
    ∧ ((process_dedupe "/r" [("a", "h2")] [("a", "h1"), ("b", "h0")]).2).lookup "b"
        = some "h0"
    ∧ ((process_dedupe "/r" [("a", "h2")] [("a", "h1"), ("b", "h0")]).2).lookup "c"
        = none :=
  ⟨(ledger_update_forward_carry "/r" [("a", "h2")] [("a", "h1"), ("b", "h0")]
      (by decide) "a").trans (by decide),
   (ledger_update_forward_carry "/r" [("a", "h2")] [("a", "h1"), ("b", "h0")]
      (by decide) "b").trans (by decide),
   (ledger_update_forward_carry "/r" [("a", "h2")] [("a", "h1"), ("b", "h0")]
      (by decide) "c").trans (by decide)⟩

/-- C3: on a first run (empty loaded ledger) every manifest entry is
classified as changed and the reclaim candidate list is empty. -/
theorem first_run_all_changed (portodb_root : String)
    (current_map : List (String × String)) (_hne : current_map ≠ []) :
    (∀ kv ∈ current_map,
        classified_unchanged ([] : List (String × String)) kv.1 kv.2 = false)
    ∧ (process_dedupe portodb_root current_map []).1 = [] := by
  constructor
  · intro kv _
    rfl
  · rw [process_dedupe, dedupe_classify_fst]
    simp [classified_unchanged, List.lookup]

/-- Witness for C3 on a concrete one-file first run. -/
theorem first_run_all_changed_witness :
    classified_unchanged ([] : List (String × String)) "a.txt" "h1" = false
    ∧ (process_dedupe "/r" [("a.txt", "h1")] []).1 = [] := by
  have h := first_run_all_changed "/r" [("a.txt", "h1")] (by decide)
  exact ⟨h.1 ("a.txt", "h1") (by decide), h.2⟩

/-- C7: loading an absent ledger file yields the empty mapping with no
warning; loading a present but unparseable ledger file yields the empty
mapping and prints the warning. -/
theorem ledger_load_absent_and_unparseable :
    load_portodb_log LedgerFile.absent = ([], false)
    ∧ ∀ msg : String,
        load_portodb_log (LedgerFile.present (Except.error msg)) = ([], true) :=
  ⟨rfl, fun _ => rfl⟩

/-- C9: handed an empty reclaim candidate list, the planner writes nothing —
no plan artifact, not even an empty one — and prints the
nothing-to-reclaim message. -/
theorem reclaim_planner_empty_noop (timestamp cwd : String) :
    generate_portodb_delete_script timestamp cwd []
      = ([], "[INFO] No unchanged PortoDB files this run; no delete script generated.") :=
  rfl

/-- C10: a ledger file that parses as JSON but is not an object yields the
empty mapping without a warning; a parsed object is returned with every value
coerced through Python str(). -/
theorem ledger_load_nonobject_and_coercion (data : PyJson)
    (entries : List (String × PyJson)) :
    (isJsonObj data = false →
        load_portodb_log (LedgerFile.present (Except.ok data)) = ([], false))
    ∧ load_portodb_log (LedgerFile.present (Except.ok (PyJson.jobj entries)))
        = (entries.map fun kv => (kv.1, pyStr kv.2), false) := by
  constructor
  · intro h
    cases data <;> simp_all [isJsonObj, load_portodb_log]
  · rfl

/-- Witness for C10: a top-level JSON array and a singleton object. -/
theorem ledger_load_nonobject_and_coercion_witness :
    load_portodb_log (LedgerFile.present (Except.ok (PyJson.jarr []))) = ([], false)
    ∧ load_portodb_log (LedgerFile.present (Except.ok
        (PyJson.jobj [("a", PyJson.jstr "x")]))) = ([("a", "x")], false) :=
  ⟨(ledger_load_nonobject_and_coercion (PyJson.jarr []) []).1 (by decide),
   (ledger_load_nonobject_and_coercion (PyJson.jarr []) [("a", PyJson.jstr "x")]).2⟩

/-- C8: saving any well-formed mapping (duplicate-free keys) and loading it
back yields an equal mapping — equal at every key — and no warning. -/
theorem ledger_round_trip (m : List (String × String))
    (hn : (m.map Prod.fst).Nodup) (k : String) :
    ((load_portodb_log (save_portodb_log m)).1).lookup k = m.lookup k
    ∧ (load_portodb_log (save_portodb_log m)).2 = false := by
  constructor
  · have h1 : (load_portodb_log (save_portodb_log m)).1 = sortPairsByKey m := by
      simp only [save_portodb_log, load_portodb_log]
      exact map_pyStr_jstr (sortPairsByKey m)
    rw [h1]
    have hperm := sortPairsByKey_perm m
    have hns : ((sortPairsByKey m).map Prod.fst).Nodup :=
      ((hperm.map Prod.fst).symm).nodup hn
    exact lookup_eq_of_perm hperm hns k
  · rfl

/-- Witness for C8 on a concrete two-entry mapping whose save is re-sorted. -/
theorem ledger_round_trip_witness :
    ((load_portodb_log (save_portodb_log [("b", "2"), ("a", "1")])).1).lookup "a"
      = some "1" :=
  ((ledger_round_trip [("b", "2"), ("a", "1")] (by decide) "a").1).trans (by decide)

/-- C4 counterexample: with the first file unreadable mid-stream, the whole
manifest step raises — the readable second file is not processed and no
mapping is produced, contradicting "aborts processing only that one file and
continues with the remaining files". -/
theorem hasher_error_aborts_walk_counterexample :
    write_sha256_file (fun _ => "d0")
        [("a.txt", [Except.error "unreadable"]), ("b.txt", [Except.ok [104]])]
      = Except.error "unreadable"
    ∧ write_sha256_file (fun _ => "d0")
        [("a.txt", [Except.error "unreadable"]), ("b.txt", [Except.ok [104]])]
      ≠ Except.ok ⟨[("b.txt", "d0")], ["d0  b.txt"]⟩ := by
  exact ⟨by decide, by decide⟩

/-- C4 amended: an IOError from the hasher on any regular file propagates out
of the walk uncaught and aborts the whole manifest step — files after the
failing one are never processed and no per-file isolation or error summary
exists. -/
theorem hasher_error_aborts_walk (digest : List ByteChunk → String)
    (walk_before walk_after : List (String × ChunkStream))
    (rel_path : String) (stream : ChunkStream) (msg : String)
    (hbefore : ∀ p ∈ walk_before,
        p.1 = "SHA256.txt" ∨ ∃ d, compute_sha256 digest p.2 = Except.ok d)
    (hrel : rel_path ≠ "SHA256.txt")
    (herr : compute_sha256 digest stream = Except.error msg) :
    write_sha256_file digest (walk_before ++ (rel_path, stream) :: walk_after)
      = Except.error msg := by
  induction walk_before with
  | nil =>
    simp only [List.nil_append, write_sha256_file, if_neg hrel]
    rw [herr]
  | cons p rest ih =>
    obtain ⟨prel, pstream⟩ := p
    have hrest : ∀ q ∈ rest,
        q.1 = "SHA256.txt" ∨ ∃ d, compute_sha256 digest q.2 = Except.ok d :=
      fun q hq => hbefore q (List.mem_cons_of_mem _ hq)
    by_cases hp : prel = "SHA256.txt"
    · simp only [List.cons_append, write_sha256_file, if_pos hp]
      exact ih hrest
    · rcases hbefore (prel, pstream) (List.mem_cons_self _ _) with hb | ⟨d, hd⟩
      · exact absurd hb hp
      · simp only [List.cons_append, write_sha256_file, if_neg hp, hd,
          List.append_eq, ih hrest]

/-- Witness for the amended C4: one readable file followed by one that
becomes unreadable aborts the walk with that file's IOError. -/
theorem hasher_error_aborts_walk_witness :
    write_sha256_file (fun _ => "dd")
        [("ok.txt", []), ("bad.txt", [Except.error "io"])]
      = Except.error "io" :=
  hasher_error_aborts_walk (fun _ => "dd") [("ok.txt", [])] []
    "bad.txt" [Except.error "io"] "io"
    (by
      intro p hp
      simp only [List.mem_singleton] at hp
      subst hp
      exact Or.inr ⟨"dd", rfl⟩)
    (by decide) (by decide)

/-- C5 counterexample: on a concrete successful run the manifest write trace
opens SHA256.txt directly at its final path, so the write-temp-then-rename
atomicity the claim asserts for the manifest writer does not hold. -/
theorem manifest_write_not_atomic_counterexample :
    atomicReplaceOnly (os_path_join "/backup/portodb" "SHA256.txt")
      (write_sha256_file_trace (fun _ => "d1") "/backup/portodb"
        [("a.txt", [Except.ok [1]])])
      = false := by decide

/-- C5 amended: only the ledger save uses the write-temp-then-rename pattern
(its trace never touches the final path except as rename destination); the
manifest writer opens SHA256.txt in place at its final path whenever the walk
succeeds, so a reader can observe a partially written manifest. -/
theorem persistence_atomicity (log_path : String) (data : List (String × String))
    (digest : List ByteChunk → String) (portodb_root : String)
    (walk : List (String × ChunkStream)) (res : ShaFileResult)
    (hok : write_sha256_file digest walk = Except.ok res) :
    atomicReplaceOnly log_path (save_portodb_log_trace log_path data) = true
    ∧ atomicReplaceOnly (os_path_join portodb_root "SHA256.txt")
        (write_sha256_file_trace digest portodb_root walk) = false := by
  constructor
  · have htmp : log_path ++ ".tmp" ≠ log_path := by
      intro h
      have h2 := congrArg String.length h
      simp [String.length_append] at h2
      exact absurd h2 (by decide)
    simp [atomicReplaceOnly, save_portodb_log_trace, htmp]
  · simp [write_sha256_file_trace, hok, atomicReplaceOnly]

/-- Witness for the amended C5 on a concrete log path and an empty walk
(the manifest is written, emptily, even then). -/
theorem persistence_atomicity_witness :
    atomicReplaceOnly "/root/log.json"
        (save_portodb_log_trace "/root/log.json" [("a", "1")]) = true
    ∧ atomicReplaceOnly (os_path_join "/r" "SHA256.txt")
        (write_sha256_file_trace (fun _ => "d1") "/r" []) = false :=
  persistence_atomicity "/root/log.json" [("a", "1")] (fun _ => "d1") "/r" []
    ⟨[], []⟩ rfl

/-- C6 counterexample: a directory walk that enumerates b.txt before a.txt
produces the manifest lines in that walk order, which is not sorted by
relative path as the claim asserts. -/
theorem manifest_lines_unsorted_counterexample :
    write_sha256_file
        (fun _ => "aaaaaaaaaaaaaaaaaaaaaaaaaaaaaaaaaaaaaaaaaaaaaaaaaaaaaaaaaaaaaaaa")
        [("b.txt", []), ("a.txt", [])]
      = Except.ok
          ⟨[("b.txt", "aaaaaaaaaaaaaaaaaaaaaaaaaaaaaaaaaaaaaaaaaaaaaaaaaaaaaaaaaaaaaaaa"),
            ("a.txt", "aaaaaaaaaaaaaaaaaaaaaaaaaaaaaaaaaaaaaaaaaaaaaaaaaaaaaaaaaaaaaaaa")],
           ["aaaaaaaaaaaaaaaaaaaaaaaaaaaaaaaaaaaaaaaaaaaaaaaaaaaaaaaaaaaaaaaa  b.txt",
            "aaaaaaaaaaaaaaaaaaaaaaaaaaaaaaaaaaaaaaaaaaaaaaaaaaaaaaaaaaaaaaaa  a.txt"]⟩
    ∧ ¬ relPathsSorted ["b.txt", "a.txt"] := by
  refine ⟨by decide, ?_⟩
  simp only [relPathsSorted, List.sorted_cons]
  intro h
  have := h.1 "a.txt" (by decide)
  exact absurd this (by decide)

/-- C6 amended: the manifest holds one line per regular file (the SHA256.txt
sidecar excluded) in the form fingerprint, two spaces, relative path, with a
64-hex-character fingerprint — but in directory-walk enumeration order, not
sorted by relative path. -/
theorem manifest_lines_walk_order (digest : List ByteChunk → String)
    (walk : List (String × ChunkStream)) (res : ShaFileResult)
    (hok : write_sha256_file digest walk = Except.ok res)
    (hhex : ∀ cs, isHex64 (digest cs) = true) :
    res.lines = res.sha_map.map (fun kv => kv.2 ++ "  " ++ kv.1)
    ∧ res.sha_map.map Prod.fst
        = (walk.map Prod.fst).filter (fun r => r ≠ "SHA256.txt")
    ∧ ∀ line ∈ res.lines, ∃ sha rel_path,
        line = sha ++ "  " ++ rel_path ∧ isHex64 sha = true := by
  induction walk generalizing res with
  | nil =>
    simp only [write_sha256_file, Except.ok.injEq] at hok
    subst hok
    exact ⟨rfl, rfl, fun line h => absurd h (List.not_mem_nil line)⟩
  | cons e rest ih =>
    obtain ⟨rel_path, stream⟩ := e
    by_cases hp : rel_path = "SHA256.txt"
    · rw [write_sha256_file, if_pos hp] at hok
      obtain ⟨h1, h2, h3⟩ := ih res hok
      refine ⟨h1, ?_, h3⟩
      simp [hp, h2]
    · rw [write_sha256_file, if_neg hp] at hok
      cases hc : compute_sha256 digest stream with
      | error e => rw [hc] at hok; exact absurd hok (by simp)
      | ok sha =>
        rw [hc] at hok
        cases hw : write_sha256_file digest rest with
        | error e => rw [hw] at hok; exact absurd hok (by simp)
        | ok res' =>
          rw [hw] at hok
          simp only [Except.ok.injEq] at hok
          subst hok
          obtain ⟨h1, h2, h3⟩ := ih res' hw
          have hsha : ∃ cs, sha = digest cs := by
            cases hr : read_chunks stream with
            | error e =>
              rw [compute_sha256, hr] at hc
              exact absurd hc (by simp [Except.map])
            | ok cs =>
              rw [compute_sha256, hr] at hc
              simp only [Except.map, Except.ok.injEq] at hc
              exact ⟨cs, hc.symm⟩
          obtain ⟨cs, hcs⟩ := hsha
          refine ⟨?_, ?_, ?_⟩
          · simp [h1]
          · simp [hp, h2]
          · intro line hline
            rcases List.mem_cons.mp hline with hhead | htail
            · exact ⟨sha, rel_path, hhead, hcs ▸ hhex cs⟩
            · exact h3 line htail

/-- Witness for the amended C6 on a concrete one-file walk with a concrete
64-hex digest. -/
theorem manifest_lines_walk_order_witness :
    (["aaaaaaaaaaaaaaaaaaaaaaaaaaaaaaaaaaaaaaaaaaaaaaaaaaaaaaaaaaaaaaaa  a.txt"]
        : List String)
      = [("a.txt", "aaaaaaaaaaaaaaaaaaaaaaaaaaaaaaaaaaaaaaaaaaaaaaaaaaaaaaaaaaaaaaaa")].map
          (fun kv => kv.2 ++ "  " ++ kv.1)
    ∧ [("a.txt", "aaaaaaaaaaaaaaaaaaaaaaaaaaaaaaaaaaaaaaaaaaaaaaaaaaaaaaaaaaaaaaaa")].map
          Prod.fst
      = ([("a.txt", ([] : ChunkStream))].map Prod.fst).filter
          (fun r => r ≠ "SHA256.txt") := by
  have h := manifest_lines_walk_order
    (fun _ => "aaaaaaaaaaaaaaaaaaaaaaaaaaaaaaaaaaaaaaaaaaaaaaaaaaaaaaaaaaaaaaaa")
    [("a.txt", [])]
    ⟨[("a.txt", "aaaaaaaaaaaaaaaaaaaaaaaaaaaaaaaaaaaaaaaaaaaaaaaaaaaaaaaaaaaaaaaa")],
     ["aaaaaaaaaaaaaaaaaaaaaaaaaaaaaaaaaaaaaaaaaaaaaaaaaaaaaaaaaaaaaaaa  a.txt"]⟩
    (by decide)
    (fun _ => (by decide :
      isHex64 "aaaaaaaaaaaaaaaaaaaaaaaaaaaaaaaaaaaaaaaaaaaaaaaaaaaaaaaaaaaaaaaa" = true))
  exact ⟨h.1, h.2.1⟩

end CapcutBackup
